import Mathlib

/-!
Verification development for the mouse/keyboard automation utility
(three Python sources: Tkinter V1.0, Tkinter V2.0, PyQt6 V2.0).

The development shallowly embeds the core of the program: the key
normalizer (_string_to_key, _key_to_string, _normalize_key), the hotkey
dispatcher (_on_key_press), the coordinate capture callback
(_on_mouse_click), the hotkey rebind capture session, and the execution
loop (_execute_macro together with _perform_action and
_perform_keyboard_action), as event-trace producing functions.

Machine integers do not occur; all timing values are natural numbers of
milliseconds. Threading is modelled by making the scheduling choices
(number of loop-flag reads, position of a raised exception) explicit
parameters of the loop function.
-/

namespace Clicker

/-! ## Python string primitives used by the key normalizer -/

/-- Python str.lower restricted to the basic latin range, character by
character (Lean Char.toLower lowers exactly the ASCII uppercase letters,
which covers every key name occurring in the program). -/
def pyLower (s : String) : String := ⟨s.data.map Char.toLower⟩

/-- Python str.strip with no argument: remove leading and trailing
whitespace. -/
def pyStrip (s : String) : String :=
  ⟨((s.data.dropWhile Char.isWhitespace).reverse.dropWhile Char.isWhitespace).reverse⟩

/-- Python str.lstrip with argument underscore: drop every leading
underscore. -/
def pyLstripUnderscore (s : String) : String :=
  ⟨s.data.dropWhile (fun c => c == '_')⟩

/-! ### Char.toLower is idempotent -/

theorem toNat_ofNat_valid (n : Nat) (h : Nat.isValidChar n) :
    (Char.ofNat n).toNat = n := by
  rw [Char.ofNat, dif_pos h]
  rfl

theorem toLower_idem (c : Char) :
    Char.toLower (Char.toLower c) = Char.toLower c := by
  simp only [Char.toLower]
  by_cases h : c.toNat ≥ 65 ∧ c.toNat ≤ 90
  · rw [if_pos h]
    have hv : Nat.isValidChar (c.toNat + 32) := Or.inl (by omega)
    have ht : (Char.ofNat (c.toNat + 32)).toNat = c.toNat + 32 :=
      toNat_ofNat_valid _ hv
    rw [ht, if_neg (by omega)]
  · rw [if_neg h, if_neg h]

/-- A list of characters untouched by further lowering. -/
def lowerFixed (l : List Char) : Prop := ∀ c ∈ l, Char.toLower c = c

theorem lowerFixed_map (l : List Char) : lowerFixed (l.map Char.toLower) := by
  intro c hc
  rcases List.mem_map.mp hc with ⟨a, _, rfl⟩
  exact toLower_idem a

theorem map_toLower_of_lowerFixed {l : List Char} (h : lowerFixed l) :
    l.map Char.toLower = l := by
  induction l with
  | nil => rfl
  | cons a t ih =>
      have ha : Char.toLower a = a := h a (List.mem_cons_self a t)
      have ht : lowerFixed t := fun c hc => h c (List.mem_cons_of_mem a hc)
      simp [ha, ih ht]

theorem lowerFixed_dropWhile {l : List Char} (p : Char → Bool)
    (h : lowerFixed l) : lowerFixed (l.dropWhile p) :=
  fun c hc => h c (List.dropWhile_subset p hc)

theorem lowerFixed_reverse {l : List Char} (h : lowerFixed l) :
    lowerFixed l.reverse :=
  fun c hc => h c (List.mem_reverse.mp hc)

theorem lowerFixed_pyLower (s : String) : lowerFixed (pyLower s).data :=
  lowerFixed_map s.data

theorem pyLower_of_lowerFixed {s : String} (h : lowerFixed s.data) :
    pyLower s = s := by
  rcases s with ⟨l⟩
  show (⟨l.map Char.toLower⟩ : String) = ⟨l⟩
  rw [map_toLower_of_lowerFixed h]

theorem lowerFixed_pyStrip {s : String} (h : lowerFixed s.data) :
    lowerFixed (pyStrip s).data := by
  rcases s with ⟨l⟩
  exact lowerFixed_reverse (lowerFixed_dropWhile _ (lowerFixed_reverse (lowerFixed_dropWhile _ h)))

/-! ## Key normalizer -/

/-- A runtime key value as the pynput callbacks deliver it: a plain string
(the program itself stores single-character keys as strings), an enum
member carrying a name attribute, or any other object of which only the
generic string representation is available. -/
inductive PyKey where
  | str (s : String)
  | named (name : String)
  | other (rep : String)
deriving DecidableEq

/-- _normalize_key: strings are lowered; objects with a name attribute
yield the lowered name with every leading underscore stripped; anything
else falls back to the lowered generic representation. -/
def normalize_key : PyKey → String
  | PyKey.str s => pyLower s
  | PyKey.named n => pyLstripUnderscore (pyLower n)
  | PyKey.other r => pyLower r

/-- Names of the pynput keyboard Key enum members: getattr on the Key
class succeeds exactly for these names. -/
def keyNames : List String :=
  ["alt", "alt_gr", "alt_l", "alt_r", "backspace", "caps_lock", "cmd",
   "cmd_l", "cmd_r", "ctrl", "ctrl_l", "ctrl_r", "delete", "down", "end",
   "enter", "esc", "f1", "f2", "f3", "f4", "f5", "f6", "f7", "f8", "f9",
   "f10", "f11", "f12", "f13", "f14", "f15", "f16", "f17", "f18", "f19",
   "f20", "home", "insert", "left", "media_next", "media_play_pause",
   "media_previous", "media_volume_down", "media_volume_mute",
   "media_volume_up", "menu", "num_lock", "page_down", "page_up", "pause",
   "print_screen", "right", "scroll_lock", "shift", "shift_l", "shift_r",
   "space", "tab", "up"]

/-- Result of _string_to_key: a Key enum member, identified by its name,
or a single-character string used directly as a key code. -/
inductive KeyToken where
  | named (name : String)
  | char (c : String)
deriving DecidableEq

/-- key_str.lower().strip() computed at the head of _string_to_key. -/
def cleanName (key_str : String) : String := pyStrip (pyLower key_str)

/-- _string_to_key with, in the second component, the fact that the final
except branch fired and the safe default Key.f1 was substituted.
The branches mirror the source: exact named-key lookup, lookup with an
added leading underscore, literal single character, safe default. -/
def string_to_key_ex (key_str : String) : KeyToken × Bool :=
  if cleanName key_str ∈ keyNames then
    (KeyToken.named (cleanName key_str), false)
  else if ("_" ++ cleanName key_str) ∈ keyNames then
    (KeyToken.named ("_" ++ cleanName key_str), false)
  else if (cleanName key_str).length = 1 then
    (KeyToken.char (cleanName key_str), false)
  else
    (KeyToken.named "f1", true)

/-- _string_to_key as the callers see it. -/
def string_to_key (key_str : String) : KeyToken :=
  (string_to_key_ex key_str).1

/-- _key_to_string: for an enum member, the lowered name with one leading
underscore removed; accessing the name attribute of a character token
raises AttributeError, so the except branch returns the default "f1". -/
def key_to_string (key : KeyToken) : String :=
  match key with
  | KeyToken.named n =>
      if (pyLower n).data.head? = some '_' then ⟨(pyLower n).data.drop 1⟩
      else pyLower n
  | KeyToken.char _ => "f1"

/-! ## Hotkey dispatcher -/

/-- The mutable engine fields shared between the GUI thread, the two
listener callbacks and the execution loop. -/
structure EngineState where
  is_running : Bool
  is_paused : Bool
  capture_mode : Bool
  saved_x : Option Int
  saved_y : Option Int
  key_start : PyKey
  key_pause : PyKey
  key_exit : PyKey
deriving DecidableEq

/-- Observable effects of one _on_key_press invocation: the updated engine
state plus which side effects ran (warning box, loop thread spawn,
_release_all, status signal, config save, scheduled window close). -/
structure DispatchResult where
  state : EngineState
  warned : Bool
  spawned : Bool
  released : Bool
  statusMsg : Option String
  savedConfig : Bool
  scheduledClose : Bool
deriving DecidableEq

/-- _on_key_press of the V2.0 sources: compare the normalized pressed key
against the three normalized bindings and transition accordingly. -/
def on_key_press (s : EngineState) (key : PyKey) : DispatchResult :=
  if normalize_key key = normalize_key s.key_start then
    if s.saved_x = none ∨ s.saved_y = none then
      { state := s, warned := true, spawned := false, released := false,
        statusMsg := none, savedConfig := false, scheduledClose := false }
    else
      { state := { s with is_running := true, is_paused := false },
        warned := false, spawned := true, released := false,
        statusMsg := some "Executando...", savedConfig := false,
        scheduledClose := false }
  else if normalize_key key = normalize_key s.key_pause then
    { state := { s with is_running := false, is_paused := true },
      warned := false, spawned := false, released := true,
      statusMsg := some "Pausado", savedConfig := false,
      scheduledClose := false }
  else if normalize_key key = normalize_key s.key_exit then
    { state := { s with is_running := false, is_paused := false },
      warned := false, spawned := false, released := true,
      statusMsg := none, savedConfig := true, scheduledClose := true }
  else
    { state := s, warned := false, spawned := false, released := false,
      statusMsg := none, savedConfig := false, scheduledClose := false }

/-! ## Coordinate capture -/

inductive MouseBtn where
  | left
  | right
  | middle
deriving DecidableEq

/-- Observable effects of one _on_mouse_click invocation: updated state,
the config writes issued through config_mgr.set, the coordinates signal
and the status signal. -/
structure MouseClickResult where
  state : EngineState
  configWrites : List (String × Int)
  coordsSignal : Option (Int × Int)
  statusMsg : Option String
deriving DecidableEq

/-- _on_mouse_click: while capture mode is armed, a press event of any
button records the position, disarms the mode and persists both
coordinates; every other event is ignored. -/
def on_mouse_click (s : EngineState) (x y : Int) (_button : MouseBtn)
    (pressed : Bool) : MouseClickResult :=
  if s.capture_mode && pressed then
    { state := { s with saved_x := some x, saved_y := some y,
                        capture_mode := false },
      configWrites := [("saved_x", x), ("saved_y", y)],
      coordsSignal := some (x, y),
      statusMsg := some "Coordenada capturada!" }
  else
    { state := s, configWrites := [], coordsSignal := none,
      statusMsg := none }

/-! ## Hotkey rebind capture session -/

inductive HotkeySlot where
  | start
  | pause
  | exit
deriving DecidableEq

/-- Name computed for a captured key inside the PyQt6 rebind on_press
callback: the name attribute with one leading underscore removed, or for
objects without a name attribute the generic representation with quote
characters removed (the payload of the str and other constructors). -/
def capturedKeyName (k : PyKey) : String :=
  match k with
  | PyKey.named n =>
      if n.data.head? = some '_' then ⟨n.data.drop 1⟩ else n
  | PyKey.str s => s
  | PyKey.other r => r

/-- _key_to_string applied to a raw key object, as the Tkinter rebind
on_press uses it to compute the persisted value: the lowered name with
one leading underscore removed, or the safe default "f1" when the object
has no name attribute. -/
def key_to_string_py (k : PyKey) : String :=
  match k with
  | PyKey.named n =>
      if (pyLower n).data.head? = some '_' then ⟨(pyLower n).data.drop 1⟩
      else pyLower n
  | PyKey.str _ => "f1"
  | PyKey.other _ => "f1"

/-- The config key written for each rebind slot. -/
def slotConfigKey : HotkeySlot → String
  | HotkeySlot.start => "key_start"
  | HotkeySlot.pause => "key_pause"
  | HotkeySlot.exit => "key_exit"

/-- The in-memory binding held in each rebind slot. -/
def slotBinding (s : EngineState) : HotkeySlot → PyKey
  | HotkeySlot.start => s.key_start
  | HotkeySlot.pause => s.key_pause
  | HotkeySlot.exit => s.key_exit

/-- Writing a captured key object into a rebind slot. -/
def setSlotBinding (s : EngineState) (slot : HotkeySlot) (k : PyKey) :
    EngineState :=
  match slot with
  | HotkeySlot.start => { s with key_start := k }
  | HotkeySlot.pause => { s with key_pause := k }
  | HotkeySlot.exit => { s with key_exit := k }

/-- Outcome of one Tkinter rebind capture session: state after the
session, the config writes issued, and whether the capture listener is
still armed afterwards. It never is: the listener lives in a with block,
so leaving the block — whether join returned because a key arrived or
because the 5 second timeout expired — stops it. -/
structure HotkeyCaptureResult where
  state : EngineState
  configWrites : List (String × String)
  armed : Bool
deriving DecidableEq

/-- _capture_key of the Tkinter sources: ev is the first key press
arriving within the 5 second join window, or none when the timeout
expired with no key event; the with block then stops the listener either
way. -/
def capture_key_tk (s : EngineState) (slot : HotkeySlot)
    (ev : Option PyKey) : HotkeyCaptureResult :=
  match ev with
  | none => { state := s, configWrites := [], armed := false }
  | some k =>
      { state := setSlotBinding s slot k,
        configWrites := [(slotConfigKey slot, key_to_string_py k)],
        armed := false }

/-- The join timeout of the PyQt6 rebind capture, in milliseconds. -/
def captureTimeoutMs : Nat := 15000

/-- Outcome of one PyQt6 rebind capture session, including whether the
capture listener was still running at the moment the join timeout
expired. -/
structure PyQtCaptureResult where
  state : EngineState
  configWrites : List (String × String)
  armedAtTimeout : Bool
deriving DecidableEq

/-- _capture_hotkey_rebind of the PyQt6 source, over explicit time
measured from arming. The helper thread only waits: join(timeout=15)
does not stop the pynput listener, and listener_obj.stop() runs after
dialog.exec() returns. So the listener lives from arming until the
dialog closes at closeMs (or until a key press, whose on_press handler
rebinds, persists, and returns False to stop the listener). ev is the
first key press overall together with its arrival time; it takes effect
whenever it precedes the dialog close, regardless of the join timeout.
armedAtTimeout records whether the listener was still running at
captureTimeoutMs. -/
def capture_hotkey_rebind_pyqt (s : EngineState) (slot : HotkeySlot)
    (ev : Option (Nat × PyKey)) (closeMs : Nat) : PyQtCaptureResult :=
  match ev with
  | none =>
      { state := s, configWrites := [],
        armedAtTimeout := if captureTimeoutMs < closeMs then true else false }
  | some (t, k) =>
      if t < closeMs then
        { state := setSlotBinding s slot k,
          configWrites := [(slotConfigKey slot, pyLower (capturedKeyName k))],
          armedAtTimeout :=
            if captureTimeoutMs ≤ t ∧ captureTimeoutMs < closeMs then true
            else false }
      else
        { state := s, configWrites := [],
          armedAtTimeout := if captureTimeoutMs < closeMs then true else false }

/-! ## Reachable engine states

The transitions the hotkey dispatcher, the mouse capture callback and the
termination of the execution loop perform on the shared flags. The
execution loop itself never writes is_running or is_paused (its
termination leaves both untouched), so loop exit is the identity
transition on the engine state. -/

inductive Reachable : EngineState → Prop where
  | init (cm : Bool) (x y : Option Int) (ks kp ke : PyKey) :
      Reachable { is_running := false, is_paused := false,
                  capture_mode := cm, saved_x := x, saved_y := y,
                  key_start := ks, key_pause := kp, key_exit := ke }
  | dispatch (s : EngineState) (k : PyKey) :
      Reachable s → Reachable (on_key_press s k).state
  | mouse (s : EngineState) (x y : Int) (b : MouseBtn) (pressed : Bool) :
      Reachable s → Reachable (on_mouse_click s x y b pressed).state
  | loopExit (s : EngineState) : Reachable s → Reachable s

/-! ## Execution loop (V2.0, PyQt6 source)

The loop is embedded as an event-trace producer. Scheduling is explicit:
flagReads is the number of times the while condition reads is_running as
true before reading false, and excAt is the index of the flag-true
iteration at whose head an exception escapes the iteration body (for
example the pointer-move assignment raising), or none when no exception
occurs. The two components of the run (events, exception flag) are given
by loopEvs and loopExc. -/

inductive Ev where
  | move
  | sleepMs (n : Nat)
  | clickBtn (b : MouseBtn)
  | pressBtn (b : MouseBtn)
  | releaseBtn (b : MouseBtn)
  | pressKey (k : String)
  | releaseKey (k : String)
  | releaseAll
  | status (msg : String)
  | configWrite (key : String)
deriving DecidableEq

inductive ButtonType where
  | esquerdo
  | direito
  | custom
deriving DecidableEq

inductive ActionType where
  | click
  | hold
deriving DecidableEq

/-- The configuration snapshot the loop reads: selected button, action
behavior, optional custom key, and the two timing parameters in
milliseconds. -/
structure LoopCfg where
  button_type : ButtonType
  action_type : ActionType
  custom_key : Option String
  click_delay_ms : Nat
  hold_duration_ms : Nat
deriving DecidableEq

/-- _perform_action: click is a single press-and-release call; hold is
press, sleep hold_duration_ms, release. -/
def perform_action (cfg : LoopCfg) (b : MouseBtn) : List Ev :=
  match cfg.action_type with
  | ActionType.click => [Ev.clickBtn b]
  | ActionType.hold =>
      [Ev.pressBtn b, Ev.sleepMs cfg.hold_duration_ms, Ev.releaseBtn b]

/-- _perform_keyboard_action: click is press, 50 ms, release; hold is
press, sleep hold_duration_ms, release. -/
def perform_keyboard_action (cfg : LoopCfg) (k : String) : List Ev :=
  match cfg.action_type with
  | ActionType.click => [Ev.pressKey k, Ev.sleepMs 50, Ev.releaseKey k]
  | ActionType.hold =>
      [Ev.pressKey k, Ev.sleepMs cfg.hold_duration_ms, Ev.releaseKey k]

/-- The end-of-iteration sleep: click_delay_ms after a click, and
hold_duration_ms + click_delay_ms after a hold. -/
def pacingSleep (cfg : LoopCfg) : List Ev :=
  match cfg.action_type with
  | ActionType.click => [Ev.sleepMs cfg.click_delay_ms]
  | ActionType.hold => [Ev.sleepMs (cfg.hold_duration_ms + cfg.click_delay_ms)]

/-- One iteration of the while body: for a mouse button, move the pointer
and settle 50 ms, then perform the action, then the pacing sleep; for the
custom kind with a key, the keyboard action then the pacing sleep; for
the custom kind with no key, emit the error status and break (second
component true means the iteration broke out of the loop). -/
def loopIter (cfg : LoopCfg) : List Ev × Bool :=
  match cfg.button_type with
  | ButtonType.esquerdo =>
      ([Ev.move, Ev.sleepMs 50] ++ perform_action cfg MouseBtn.left
         ++ pacingSleep cfg, false)
  | ButtonType.direito =>
      ([Ev.move, Ev.sleepMs 50] ++ perform_action cfg MouseBtn.right
         ++ pacingSleep cfg, false)
  | ButtonType.custom =>
      match cfg.custom_key with
      | some k => (perform_keyboard_action cfg k ++ pacingSleep cfg, false)
      | none =>
          ([Ev.status "Erro: Nenhuma tecla customizada selecionada"], true)

/-- Whether an exception escapes the while loop under the given schedule. -/
def loopExc (cfg : LoopCfg) : Nat → Option Nat → Bool
  | 0, _ => false
  | Nat.succ n, excAt =>
      if excAt = some 0 then true
      else if (loopIter cfg).2 then false
      else loopExc cfg n (Option.map (fun i => i - 1) excAt)

/-- Events produced by the while loop under the given schedule. -/
def loopEvs (cfg : LoopCfg) : Nat → Option Nat → List Ev
  | 0, _ => []
  | Nat.succ n, excAt =>
      if excAt = some 0 then []
      else if (loopIter cfg).2 then (loopIter cfg).1
      else (loopIter cfg).1 ++ loopEvs cfg n (Option.map (fun i => i - 1) excAt)

/-- _execute_macro of the PyQt6 V2.0 source: sync button_type to the
config store, run the while loop, and on falling out of the loop (flag
flip or break) release all held inputs and report Parado; when an
exception escapes an iteration, the except handler reports the error
status only. (The Tkinter V2.0 source differs only in performing the
pointer move once before the loop instead of on each iteration; its exit
and except paths are identical.) -/
def exec_loop (cfg : LoopCfg) (flagReads : Nat) (excAt : Option Nat) :
    List Ev :=
  if loopExc cfg flagReads excAt then
    Ev.configWrite "button_type" :: loopEvs cfg flagReads excAt
      ++ [Ev.status "Erro: exception"]
  else
    Ev.configWrite "button_type" :: loopEvs cfg flagReads excAt
      ++ [Ev.releaseAll, Ev.status "Parado"]

/-- Total milliseconds slept by a trace. -/
def sleepTotalMs : List Ev → Nat
  | [] => 0
  | Ev.sleepMs n :: rest => n + sleepTotalMs rest
  | _ :: rest => sleepTotalMs rest

/-! ## Execution loop (V1.0 source)

V1.0 moves the pointer, settles 100 ms, presses the selected button once,
then only sleeps 50 ms per iteration while is_running stays true, and
releases the button once after the loop, reporting Parado. -/

/-- The V1.0 while body: one 50 ms sleep per flag-true read. -/
def v1WaitLoop : Nat → List Ev
  | 0 => []
  | Nat.succ n => Ev.sleepMs 50 :: v1WaitLoop n

/-- _execute_macro of the V1.0 source. -/
def exec_loop_v1 (b : MouseBtn) (flagReads : Nat) : List Ev :=
  [Ev.move, Ev.sleepMs 100, Ev.pressBtn b] ++ v1WaitLoop flagReads
    ++ [Ev.releaseBtn b, Ev.status "Parado"]

/-- Event class tests used for counting press, release and click calls. -/
def isPress : Ev → Bool
  | Ev.pressBtn _ => true
  | Ev.pressKey _ => true
  | _ => false

def isRelease : Ev → Bool
  | Ev.releaseBtn _ => true
  | Ev.releaseKey _ => true
  | Ev.releaseAll => true
  | _ => false

def isClick : Ev → Bool
  | Ev.clickBtn _ => true
  | _ => false

def pressCount (t : List Ev) : Nat := t.countP isPress

def releaseCount (t : List Ev) : Nat := t.countP isRelease

def clickCount (t : List Ev) : Nat := t.countP isClick

/-! ## Helper lemmas -/

/-- Under any schedule without an exception point, no exception escapes. -/
theorem loopExc_none (cfg : LoopCfg) (n : Nat) : loopExc cfg n none = false := by
  induction n with
  | zero => rfl
  | succ m ih =>
      unfold loopExc
      rw [if_neg (by simp)]
      split
      · rfl
      · exact ih

/-- The iteration body never calls _release_all. -/
theorem releaseAll_not_in_iter (cfg : LoopCfg) :
    Ev.releaseAll ∉ (loopIter cfg).1 := by
  rcases cfg with ⟨bt, act, ck, d, h⟩
  cases bt <;> cases act <;> rcases ck with _ | k <;>
    simp [loopIter, perform_action, perform_keyboard_action, pacingSleep]

/-- Hence no _release_all call occurs anywhere inside the while loop. -/
theorem releaseAll_not_in_loopEvs (cfg : LoopCfg) (n : Nat) :
    ∀ excAt, Ev.releaseAll ∉ loopEvs cfg n excAt := by
  induction n with
  | zero => intro excAt; simp [loopEvs]
  | succ m ih =>
      intro excAt
      unfold loopEvs
      split
      · simp
      · split
        · exact releaseAll_not_in_iter cfg
        · intro hmem
          rcases List.mem_append.mp hmem with h1 | h2
          · exact releaseAll_not_in_iter cfg h1
          · exact ih _ h2

/-- No stored key name begins with an underscore. -/
theorem keyNames_head_ne_underscore :
    ∀ nm ∈ keyNames, nm.data.head? ≠ some '_' := by decide

/-- The dispatcher preserves the flags-not-both-true invariant. -/
theorem not_both_after_dispatch (s : EngineState) (k : PyKey)
    (h : ¬(s.is_running = true ∧ s.is_paused = true)) :
    ¬((on_key_press s k).state.is_running = true ∧
      (on_key_press s k).state.is_paused = true) := by
  unfold on_key_press
  split
  · split
    · exact h
    · simp
  · split
    · simp
    · split
      · simp
      · exact h

/-- The mouse capture callback never writes the run or pause flags. -/
theorem flags_after_mouse (s : EngineState) (x y : Int) (b : MouseBtn)
    (p : Bool) :
    (on_mouse_click s x y b p).state.is_running = s.is_running ∧
    (on_mouse_click s x y b p).state.is_paused = s.is_paused := by
  unfold on_mouse_click
  split
  · exact ⟨rfl, rfl⟩
  · exact ⟨rfl, rfl⟩

/-- Every event of the V1.0 while body is the 50 ms sleep. -/
theorem v1WaitLoop_sleeps (n : Nat) :
    ∀ e ∈ v1WaitLoop n, e = Ev.sleepMs 50 := by
  induction n with
  | zero => simp [v1WaitLoop]
  | succ m ih =>
      intro e he
      simp only [v1WaitLoop] at he
      rcases List.mem_cons.mp he with h | h
      · exact h
      · exact ih e h

/-- The V1.0 while body performs no press, release or click call. -/
theorem v1WaitLoop_counts (n : Nat) :
    (v1WaitLoop n).countP isPress = 0 ∧
    (v1WaitLoop n).countP isRelease = 0 ∧
    (v1WaitLoop n).countP isClick = 0 := by
  induction n with
  | zero => simp [v1WaitLoop]
  | succ m ih =>
      simp [v1WaitLoop, List.countP_cons, isPress, isRelease, isClick,
            ih.1, ih.2.1, ih.2.2]

/-! ## Claim theorems -/

/-- C1 counterexample: with holdDurationMs = 500 and interClickDelayMs =
100 a single hold-mode iteration sleeps 1150 ms in total; even after
discounting the fixed 50 ms settle delay the cycle is 1100 ms, not the
claimed holdDurationMs + interClickDelayMs = 600 ms, because the
end-of-iteration sleep of hold + delay comes on top of the hold already
slept inside _perform_action. -/
theorem c1_counterexample :
    sleepTotalMs (loopIter
        (LoopCfg.mk ButtonType.esquerdo ActionType.hold none 100 500)).1
      = 1150 ∧
    sleepTotalMs (loopIter
        (LoopCfg.mk ButtonType.esquerdo ActionType.hold none 100 500)).1 - 50
      ≠ 500 + 100 := by
  decide

/-- C1 (amended): in hold mode on a mouse button the total sleep of one
execution-loop iteration is the 50 ms settle delay plus twice
holdDurationMs plus interClickDelayMs: the end-of-iteration sleep of
(holdDurationMs + interClickDelayMs) is an additional delay on top of the
hold performed inside the action step. -/
theorem c1_hold_cycle (d h : Nat) :
    sleepTotalMs (loopIter
        (LoopCfg.mk ButtonType.esquerdo ActionType.hold none d h)).1
      = 50 + (2 * h + d) := by
  simp [loopIter, perform_action, pacingSleep, sleepTotalMs]
  omega

/-- C2 counterexample: in a state with the running flag already true and
a coordinate saved, pressing the Start hotkey again spawns another
execution-loop thread, contradicting the claimed no-op. -/
theorem c2_counterexample :
    (EngineState.mk true false false (some 134) (some 902)
        (PyKey.named "f1") (PyKey.named "f2")
        (PyKey.named "f3")).is_running = true ∧
    (on_key_press (EngineState.mk true false false (some 134) (some 902)
        (PyKey.named "f1") (PyKey.named "f2") (PyKey.named "f3"))
        (PyKey.named "f1")).spawned = true := by
  decide

/-- C2 (amended): pressing the Start hotkey while running is already true
(and a coordinate is saved) is not a no-op: the dispatcher has no guard
on the running flag, re-asserts running = true and paused = false, and
spawns an additional execution-loop thread, so several loop instances can
be active at once. -/
theorem c2_start_respawn (s : EngineState) (k : PyKey)
    (hk : normalize_key k = normalize_key s.key_start)
    (_hrun : s.is_running = true)
    (hx : s.saved_x ≠ none) (hy : s.saved_y ≠ none) :
    (on_key_press s k).spawned = true ∧
    (on_key_press s k).state.is_running = true ∧
    (on_key_press s k).state.is_paused = false := by
  unfold on_key_press
  rw [if_pos hk, if_neg (by rintro (h | h); exacts [hx h, hy h])]
  exact ⟨rfl, rfl, rfl⟩

/-- C2 witness: the amended statement evaluated at the concrete
running-with-coordinate state. -/
theorem c2_witness :
    (on_key_press (EngineState.mk true false false (some 134) (some 902)
        (PyKey.named "f1") (PyKey.named "f2") (PyKey.named "f3"))
        (PyKey.named "f1")).spawned = true ∧
    (on_key_press (EngineState.mk true false false (some 134) (some 902)
        (PyKey.named "f1") (PyKey.named "f2") (PyKey.named "f3"))
        (PyKey.named "f1")).state.is_running = true ∧
    (on_key_press (EngineState.mk true false false (some 134) (some 902)
        (PyKey.named "f1") (PyKey.named "f2") (PyKey.named "f3"))
        (PyKey.named "f1")).state.is_paused = false :=
  c2_start_respawn _ _ (by decide) rfl (by decide) (by decide)

/-- C3 counterexample: when an exception escapes the first iteration the
loop reports the error status without ever invoking release-all, so the
claimed release-before-terminal-status fails on the exception exit path. -/
theorem c3_counterexample :
    exec_loop (LoopCfg.mk ButtonType.esquerdo ActionType.click none 100 500)
        1 (some 0)
      = [Ev.configWrite "button_type", Ev.status "Erro: exception"] ∧
    Ev.releaseAll ∉
      exec_loop (LoopCfg.mk ButtonType.esquerdo ActionType.click none 100 500)
        1 (some 0) := by
  decide

/-- C3 (amended): when no exception escapes an iteration, the loop ends —
whether by flag flip or by the missing-custom-key break — by invoking
release-all and then reporting the final Parado status; but when an
exception escapes an iteration, the except handler reports the error
status without invoking release-all at all. -/
theorem c3_release_paths (cfg : LoopCfg) (n : Nat) (excAt : Option Nat) :
    (excAt = none →
      ∃ pre, exec_loop cfg n excAt
        = pre ++ [Ev.releaseAll, Ev.status "Parado"]) ∧
    (loopExc cfg n excAt = true →
      Ev.releaseAll ∉ exec_loop cfg n excAt) := by
  constructor
  · rintro rfl
    refine ⟨Ev.configWrite "button_type" :: loopEvs cfg n none, ?_⟩
    unfold exec_loop
    rw [loopExc_none]
    simp
  · intro hexc
    unfold exec_loop
    rw [hexc]
    simp only [if_true]
    intro hmem
    rcases List.mem_cons.mp hmem with h1 | h1
    · exact Ev.noConfusion h1
    · rcases List.mem_append.mp h1 with h2 | h2
      · exact releaseAll_not_in_loopEvs cfg n excAt h2
      · simp at h2

/-- C3 witness: the amended statement evaluated at a concrete
configuration, once without and once with an exception. -/
theorem c3_witness :
    (∃ pre,
        exec_loop (LoopCfg.mk ButtonType.esquerdo ActionType.click none 100 500)
            1 none
          = pre ++ [Ev.releaseAll, Ev.status "Parado"]) ∧
    Ev.releaseAll ∉
      exec_loop (LoopCfg.mk ButtonType.esquerdo ActionType.click none 100 500)
        1 (some 0) :=
  ⟨(c3_release_paths _ 1 none).1 rfl,
   (c3_release_paths _ 1 (some 0)).2 (by decide)⟩

/-- C4 counterexample: for the single-character name "a" the first
conversion does not fall back to the safe default (it yields the literal
character token), yet the round trip returns "f1" instead of the
normalized form "a", refuting the claimed round-trip identity for
single-character names. -/
theorem c4_counterexample :
    (string_to_key_ex "a").2 = false ∧
    key_to_string (string_to_key "a") = "f1" ∧
    cleanName "a" = "a" ∧
    key_to_string (string_to_key "a") ≠ cleanName "a" := by
  decide

/-- C4 (amended): the round trip toString(toToken(s)) equals the
normalized lower-case form of s exactly for names of named keys (inputs
whose cleaned lower-case form is a Key member name); single-character
names take the literal-character tier and the backward conversion then
fails onto the safe default name "f1". -/
theorem c4_roundtrip_named (s : String) (h : cleanName s ∈ keyNames) :
    key_to_string (string_to_key s) = cleanName s := by
  unfold string_to_key string_to_key_ex
  rw [if_pos h]
  show key_to_string (KeyToken.named (cleanName s)) = cleanName s
  have hfix : lowerFixed (cleanName s).data :=
    lowerFixed_pyStrip (lowerFixed_pyLower s)
  have hlow : pyLower (cleanName s) = cleanName s := pyLower_of_lowerFixed hfix
  simp only [key_to_string]
  rw [hlow, if_neg (keyNames_head_ne_underscore _ h)]

/-- C4 witness: the amended round trip evaluated at the named key "F1". -/
theorem c4_witness :
    cleanName "F1" ∈ keyNames ∧
    key_to_string (string_to_key "F1") = cleanName "F1" :=
  ⟨by decide, c4_roundtrip_named "F1" (by decide)⟩

/-- C5: in every state reachable from the initial flags (running = false,
paused = false) through hotkey dispatch, mouse-capture and loop-exit
transitions, running and paused are never both true. -/
theorem c5_not_both_flags (s : EngineState) (h : Reachable s) :
    ¬(s.is_running = true ∧ s.is_paused = true) := by
  induction h with
  | init cm x y ks kp ke => simp
  | dispatch s k _ ih => exact not_both_after_dispatch s k ih
  | mouse s x y b p _ ih =>
      have hm := flags_after_mouse s x y b p
      rw [hm.1, hm.2]
      exact ih
  | loopExit s _ ih => exact ih

/-- C5 witness: the invariant evaluated at the initial state. -/
theorem c5_witness :
    ¬((EngineState.mk false false false none none (PyKey.named "f1")
        (PyKey.named "f2") (PyKey.named "f3")).is_running = true ∧
      (EngineState.mk false false false none none (PyKey.named "f1")
        (PyKey.named "f2") (PyKey.named "f3")).is_paused = true) :=
  c5_not_both_flags _
    (Reachable.init false none none (PyKey.named "f1") (PyKey.named "f2")
      (PyKey.named "f3"))

/-- C6: pressing the Start hotkey while a coordinate component is missing
surfaces the warning, spawns no execution-loop thread and leaves the
engine state completely unchanged. -/
theorem c6_start_without_coord (s : EngineState) (k : PyKey)
    (hk : normalize_key k = normalize_key s.key_start)
    (hc : s.saved_x = none ∨ s.saved_y = none) :
    (on_key_press s k).warned = true ∧
    (on_key_press s k).spawned = false ∧
    (on_key_press s k).state = s := by
  unfold on_key_press
  rw [if_pos hk, if_pos hc]
  exact ⟨rfl, rfl, rfl⟩

/-- C6 witness: Start pressed with no saved x coordinate. -/
theorem c6_witness :
    (on_key_press (EngineState.mk false false false none (some 902)
        (PyKey.named "f1") (PyKey.named "f2") (PyKey.named "f3"))
        (PyKey.named "f1")).warned = true ∧
    (on_key_press (EngineState.mk false false false none (some 902)
        (PyKey.named "f1") (PyKey.named "f2") (PyKey.named "f3"))
        (PyKey.named "f1")).spawned = false ∧
    (on_key_press (EngineState.mk false false false none (some 902)
        (PyKey.named "f1") (PyKey.named "f2") (PyKey.named "f3"))
        (PyKey.named "f1")).state
      = EngineState.mk false false false none (some 902) (PyKey.named "f1")
          (PyKey.named "f2") (PyKey.named "f3") :=
  c6_start_without_coord _ _ (by decide) (Or.inl rfl)

/-- C7: while coordinate capture is armed, a press event of any button at
(x, y) records the coordinate, disarms the mode and persists saved_x and
saved_y, while a release event changes nothing. -/
theorem c7_capture_coordinate (s : EngineState) (x y : Int) (b : MouseBtn)
    (h : s.capture_mode = true) :
    (on_mouse_click s x y b true).state.saved_x = some x ∧
    (on_mouse_click s x y b true).state.saved_y = some y ∧
    (on_mouse_click s x y b true).state.capture_mode = false ∧
    (on_mouse_click s x y b true).configWrites
      = [("saved_x", x), ("saved_y", y)] ∧
    (on_mouse_click s x y b false).state = s ∧
    (on_mouse_click s x y b false).configWrites = [] := by
  unfold on_mouse_click
  rw [h]
  exact ⟨rfl, rfl, rfl, rfl, rfl, rfl⟩

/-- C7 witness: a simulated press at (134, 902) while armed. -/
theorem c7_witness :
    (on_mouse_click (EngineState.mk false false true none none
        (PyKey.named "f1") (PyKey.named "f2") (PyKey.named "f3"))
        134 902 MouseBtn.left true).state.saved_x = some 134 ∧
    (on_mouse_click (EngineState.mk false false true none none
        (PyKey.named "f1") (PyKey.named "f2") (PyKey.named "f3"))
        134 902 MouseBtn.left true).state.saved_y = some 902 ∧
    (on_mouse_click (EngineState.mk false false true none none
        (PyKey.named "f1") (PyKey.named "f2") (PyKey.named "f3"))
        134 902 MouseBtn.left true).state.capture_mode = false ∧
    (on_mouse_click (EngineState.mk false false true none none
        (PyKey.named "f1") (PyKey.named "f2") (PyKey.named "f3"))
        134 902 MouseBtn.left true).configWrites
      = [("saved_x", 134), ("saved_y", 902)] ∧
    (on_mouse_click (EngineState.mk false false true none none
        (PyKey.named "f1") (PyKey.named "f2") (PyKey.named "f3"))
        134 902 MouseBtn.left false).state
      = EngineState.mk false false true none none (PyKey.named "f1")
          (PyKey.named "f2") (PyKey.named "f3") ∧
    (on_mouse_click (EngineState.mk false false true none none
        (PyKey.named "f1") (PyKey.named "f2") (PyKey.named "f3"))
        134 902 MouseBtn.left false).configWrites = [] :=
  c7_capture_coordinate _ 134 902 MouseBtn.left rfl

/-- C8 counterexample: in the PyQt6 rebind capture, no key arrives before
the 15 second join timeout (the first key comes at 20 s), yet the
listener is still armed when the timeout expires, and that late key —
pressed before the dialog closes at 30 s — still rebinds the Start slot
and persists key_start, so the claimed disarm-at-timeout with the prior
binding left unchanged fails on that source. -/
theorem c8_counterexample :
    captureTimeoutMs ≤ 20000 ∧
    (capture_hotkey_rebind_pyqt (EngineState.mk false false false none none
        (PyKey.named "f1") (PyKey.named "f2") (PyKey.named "f3"))
        HotkeySlot.start (some (20000, PyKey.str "a")) 30000).armedAtTimeout
      = true ∧
    (capture_hotkey_rebind_pyqt (EngineState.mk false false false none none
        (PyKey.named "f1") (PyKey.named "f2") (PyKey.named "f3"))
        HotkeySlot.start (some (20000, PyKey.str "a")) 30000).state.key_start
      = PyKey.str "a" ∧
    (capture_hotkey_rebind_pyqt (EngineState.mk false false false none none
        (PyKey.named "f1") (PyKey.named "f2") (PyKey.named "f3"))
        HotkeySlot.start (some (20000, PyKey.str "a")) 30000).configWrites
      = [("key_start", "a")] := by
  decide

/-- C8 (amended): in the Tkinter rebind capture the 5 second timeout with
no key event leaves the engine state and the persisted bindings
unchanged and disarms the capture, because leaving the with block stops
the listener. In the PyQt6 rebind capture the 15 second join timeout does
not stop the listener: when no key arrives before the dialog closes the
prior binding is indeed unchanged and nothing is persisted, but a key
arriving after the timeout while the dialog is still open — the listener
being still armed at the timeout — rebinds the slot and persists it. -/
theorem c8_capture_disarm (s : EngineState) (slot : HotkeySlot) :
    ((capture_key_tk s slot none).state = s ∧
     (capture_key_tk s slot none).configWrites = [] ∧
     (capture_key_tk s slot none).armed = false) ∧
    (∀ closeMs : Nat,
      (capture_hotkey_rebind_pyqt s slot none closeMs).state = s ∧
      (capture_hotkey_rebind_pyqt s slot none closeMs).configWrites = []) ∧
    (∀ (t closeMs : Nat) (k : PyKey),
      captureTimeoutMs ≤ t → t < closeMs →
      slotBinding (capture_hotkey_rebind_pyqt s slot (some (t, k))
          closeMs).state slot = k ∧
      (capture_hotkey_rebind_pyqt s slot (some (t, k)) closeMs).configWrites
        = [(slotConfigKey slot, pyLower (capturedKeyName k))] ∧
      (capture_hotkey_rebind_pyqt s slot (some (t, k)) closeMs).armedAtTimeout
        = true) := by
  refine ⟨⟨rfl, rfl, rfl⟩, fun closeMs => ⟨rfl, rfl⟩, ?_⟩
  intro t closeMs k hlate hopen
  simp only [capture_hotkey_rebind_pyqt]
  rw [if_pos hopen]
  refine ⟨?_, rfl, ?_⟩
  · cases slot <;> rfl
  · rw [if_pos ⟨hlate, Nat.lt_of_le_of_lt hlate hopen⟩]

/-- C8 witness: the amended statement evaluated at a concrete state, with
the late PyQt6 key arriving at 20 s and the dialog closing at 30 s. -/
theorem c8_witness :
    ((capture_key_tk (EngineState.mk false false false none none
        (PyKey.named "f1") (PyKey.named "f2") (PyKey.named "f3"))
        HotkeySlot.start none).state
      = EngineState.mk false false false none none (PyKey.named "f1")
          (PyKey.named "f2") (PyKey.named "f3") ∧
     (capture_key_tk (EngineState.mk false false false none none
        (PyKey.named "f1") (PyKey.named "f2") (PyKey.named "f3"))
        HotkeySlot.start none).configWrites = [] ∧
     (capture_key_tk (EngineState.mk false false false none none
        (PyKey.named "f1") (PyKey.named "f2") (PyKey.named "f3"))
        HotkeySlot.start none).armed = false) ∧
    ((capture_hotkey_rebind_pyqt (EngineState.mk false false false none none
        (PyKey.named "f1") (PyKey.named "f2") (PyKey.named "f3"))
        HotkeySlot.start none 30000).state
      = EngineState.mk false false false none none (PyKey.named "f1")
          (PyKey.named "f2") (PyKey.named "f3") ∧
     (capture_hotkey_rebind_pyqt (EngineState.mk false false false none none
        (PyKey.named "f1") (PyKey.named "f2") (PyKey.named "f3"))
        HotkeySlot.start none 30000).configWrites = []) ∧
    (slotBinding (capture_hotkey_rebind_pyqt (EngineState.mk false false
        false none none (PyKey.named "f1") (PyKey.named "f2")
        (PyKey.named "f3"))
        HotkeySlot.start (some (20000, PyKey.str "a")) 30000).state
        HotkeySlot.start
      = PyKey.str "a" ∧
     (capture_hotkey_rebind_pyqt (EngineState.mk false false false none none
        (PyKey.named "f1") (PyKey.named "f2") (PyKey.named "f3"))
        HotkeySlot.start (some (20000, PyKey.str "a")) 30000).configWrites
      = [(slotConfigKey HotkeySlot.start,
          pyLower (capturedKeyName (PyKey.str "a")))] ∧
     (capture_hotkey_rebind_pyqt (EngineState.mk false false false none none
        (PyKey.named "f1") (PyKey.named "f2") (PyKey.named "f3"))
        HotkeySlot.start (some (20000, PyKey.str "a")) 30000).armedAtTimeout
      = true) :=
  ⟨(c8_capture_disarm (EngineState.mk false false false none none
      (PyKey.named "f1") (PyKey.named "f2") (PyKey.named "f3"))
      HotkeySlot.start).1,
   (c8_capture_disarm (EngineState.mk false false false none none
      (PyKey.named "f1") (PyKey.named "f2") (PyKey.named "f3"))
      HotkeySlot.start).2.1 30000,
   (c8_capture_disarm (EngineState.mk false false false none none
      (PyKey.named "f1") (PyKey.named "f2") (PyKey.named "f3"))
      HotkeySlot.start).2.2 20000 30000 (PyKey.str "a") (by decide)
      (by decide)⟩

/-- C9: the V1.0 execution run presses the selected button exactly once,
before the while loop, releases it exactly once, after the loop, performs
no click call, and every loop iteration only sleeps and re-checks the
flag. -/
theorem c9_v1_single_hold (b : MouseBtn) (n : Nat) :
    exec_loop_v1 b n
      = [Ev.move, Ev.sleepMs 100, Ev.pressBtn b] ++ v1WaitLoop n
          ++ [Ev.releaseBtn b, Ev.status "Parado"] ∧
    (∀ e ∈ v1WaitLoop n, e = Ev.sleepMs 50) ∧
    pressCount (exec_loop_v1 b n) = 1 ∧
    releaseCount (exec_loop_v1 b n) = 1 ∧
    clickCount (exec_loop_v1 b n) = 0 := by
  refine ⟨rfl, v1WaitLoop_sleeps n, ?_, ?_, ?_⟩ <;>
    simp [pressCount, releaseCount, clickCount, exec_loop_v1,
          List.countP_append, List.countP_cons, isPress, isRelease, isClick,
          (v1WaitLoop_counts n).1, (v1WaitLoop_counts n).2.1,
          (v1WaitLoop_counts n).2.2]

/-- C10: _normalize_key is total on every input shape, always returns a
lower-case string (a fixed point of lowering), and is idempotent: feeding
its result back in as a string returns the same string. -/
theorem c10_normalize_key (k : PyKey) :
    pyLower (normalize_key k) = normalize_key k ∧
    normalize_key (PyKey.str (normalize_key k)) = normalize_key k := by
  have hfix : lowerFixed (normalize_key k).data := by
    cases k with
    | str s => exact lowerFixed_pyLower s
    | named n => exact lowerFixed_dropWhile _ (lowerFixed_pyLower n)
    | other r => exact lowerFixed_pyLower r
  have h1 : pyLower (normalize_key k) = normalize_key k :=
    pyLower_of_lowerFixed hfix
  exact ⟨h1, h1⟩

end Clicker
